import Mathlib

/-!
# Verification of the hamm-scraper retailer invoice acquisition engine

A shallow embedding, in Lean 4, of the parts of `src/web_scraper.py`,
`src/download_handler_code.py` and `src/pdf_handling_code.py` that the
frozen claims C1-C10 are about, together with theorems settling each claim.

Conventions of the embedding:
* Filesystem paths are lists of path segments (`List String`) plus a file
  name; the filesystem itself is the list of files present.
* `datetime` values are `Date` records (year, month, day); "now" is passed
  explicitly where the Python code calls `datetime.now()`.
* Browser/page effects irrelevant to a claim (screenshots, waits, logging)
  are dropped; the control flow (loops, early `return`, `continue`,
  `try`/`except` reachability) is kept.
-/

/-- A calendar date, standing for the `datetime` values the scraper
manipulates (it never uses the time-of-day part for directory layout). -/
structure Date where
  year : Nat
  month : Nat
  day : Nat
deriving DecidableEq, Repr

/-- Zero-padded two-digit rendering, as Python's `%m` / `%d` strftime
directives produce. -/
def pad2 (n : Nat) : String :=
  if n < 10 then "0" ++ toString n else toString n

/-- English month abbreviations, as Python's `%b` strftime directive
produces in the C locale (`Jan` .. `Dec`). -/
def monthAbbrev (m : Nat) : String :=
  match m with
  | 1 => "Jan" | 2 => "Feb" | 3 => "Mar" | 4 => "Apr"
  | 5 => "May" | 6 => "Jun" | 7 => "Jul" | 8 => "Aug"
  | 9 => "Sep" | 10 => "Oct" | 11 => "Nov" | 12 => "Dec"
  | _ => "???"

/-- `purchase_date.strftime("%m-%b")`, e.g. `"07-Jul"`
(`web_scraper.py` line 527). -/
def strftimeMonthDir (d : Date) : String :=
  pad2 d.month ++ "-" ++ monthAbbrev d.month

/-- `WebScraper._get_invoice_directory` (`web_scraper.py` lines 519-543):
base directory `downloads/<company>`; with a purchase date it appends
`<year>/<MM-Mon>`; without one it appends `<current year>/<current MM-Mon>`
and then the extra `unknown_date` subfolder.  `now` stands for
`datetime.now()`. -/
def getInvoiceDirectory (company : String) (purchaseDate : Option Date) (now : Date) :
    List String :=
  let downloadsDir := ["downloads", company]
  match purchaseDate with
  | some d =>
      downloadsDir ++ [toString d.year, strftimeMonthDir d]
  | none =>
      let monthDir := downloadsDir ++ [toString now.year, strftimeMonthDir now]
      monthDir ++ ["unknown_date"]

/-- A file on disk: directory (as segments) and file name. -/
structure FsFile where
  dir : List String
  name : String
deriving DecidableEq, Repr

/-- Contiguous-sublist (substring) test on character lists; used to model
the glob pattern `*<order_number>*`. -/
def charsContain (pat : List Char) : List Char → Bool
  | [] => pat.isEmpty
  | c :: rest => pat.isPrefixOf (c :: rest) || charsContain pat rest

/-- `WebScraper._check_invoice_exists` (`web_scraper.py` lines 545-558):
false when the order number is falsy or `"unknown"`, otherwise true iff the
directory holds a file whose name matches the glob `*<order_number>*`. -/
def checkInvoiceExists (fs : List FsFile) (directory : List String)
    (orderNumber : String) : Bool :=
  if orderNumber = "" ∨ orderNumber = "unknown" then false
  else fs.any fun f => f.dir = directory ∧ charsContain orderNumber.data f.name.data

theorem isPrefixOf_self_append (p b : List Char) : p.isPrefixOf (p ++ b) = true := by
  induction p with
  | nil => simp [List.isPrefixOf]
  | cons c cs ih => simp [List.isPrefixOf, ih]

theorem charsContain_append_middle (a p b : List Char) :
    charsContain p (a ++ p ++ b) = true := by
  induction a with
  | nil =>
      cases p with
      | nil => cases b <;> simp [charsContain]
      | cons c cs =>
          simp only [List.nil_append, charsContain, Bool.or_eq_true]
          exact Or.inl (isPrefixOf_self_append _ _)
  | cons c cs ih =>
      simp only [List.cons_append, charsContain, Bool.or_eq_true]
      exact Or.inr ih

/-! ## Order processing and dedup (claim C1)

`WebScraper.scrape_walmart` (lines 1094-1241): for each order link, the
purchase date is extracted, the invoice directory computed, and
`_check_invoice_exists` consulted; on a hit the method does `return`,
ending the whole retailer run (lines 1174-1187, likewise 941-954 on the
JavaScript path).  Otherwise the invoice is written via `page.pdf()` under
the name built at lines 1196-1204.

`WebScraper.scrape_amazon` (lines 2093-2113): for each invoice link, when a
purchase date is known the exact target path is computed and, if the file
exists, the loop does `continue` (line 2108), skipping only that invoice;
without a purchase date the download handler's fallback (lines 1855-1870)
saves a timestamped file under `<output>/downloads/unknown_date/`.
-/

/-- An order as enumerated from a listing page: extracted order number
(`"unknown"` when unextractable) and optional purchase date. -/
structure Order where
  orderNumber : String
  purchaseDate : Option Date
deriving DecidableEq, Repr

/-- Writing a file: `open(path,'wb')` either overwrites in place (path
already present, file set unchanged) or creates the file. -/
def writeFile (fs : List FsFile) (f : FsFile) : List FsFile :=
  if f ∈ fs then fs else fs ++ [f]

/-- File name for a Walmart invoice PDF (`web_scraper.py` lines 1196-1204):
`walmart_invoice_<order>_<MM-DD>.pdf`, with the current date and an
`_unknown_purchase_date` marker when no purchase date was extracted. -/
def walmartPdfName (o : Order) (now : Date) : String :=
  match o.purchaseDate with
  | some d => "walmart_invoice_" ++ o.orderNumber ++ "_" ++ (pad2 d.month ++ "-" ++ pad2 d.day) ++ ".pdf"
  | none => "walmart_invoice_" ++ o.orderNumber ++ "_" ++ (pad2 now.month ++ "-" ++ pad2 now.day) ++ "_unknown_purchase_date.pdf"

/-- The Walmart per-order loop body of `scrape_walmart` restricted to its
filesystem effect (lines 1168-1241): compute the invoice directory from the
purchase date (fallback directory when none), `return` from the whole
scrape when `_check_invoice_exists` fires, otherwise save the `page.pdf()`
rendering and move to the next order. -/
def walmartProcessOrders (company : String) (now : Date) :
    List Order → List FsFile → List FsFile
  | [], fs => fs
  | o :: rest, fs =>
      let invoiceDir := getInvoiceDirectory company o.purchaseDate now
      if checkInvoiceExists fs invoiceDir o.orderNumber then
        fs
      else
        walmartProcessOrders company now rest
          (writeFile fs ⟨invoiceDir, walmartPdfName o now⟩)

/-- The exact Amazon invoice path computed at lines 2100-2103 (and again in
the download handler, lines 1836-1845): directory
`_get_invoice_directory("amazon", purchase_date)` and file name
`amazon_invoice_<order>_<MM-DD>.pdf`. -/
def amazonInvoicePath (orderNumber : String) (d : Date) (now : Date) : FsFile :=
  ⟨getInvoiceDirectory "amazon" (some d) now,
   "amazon_invoice_" ++ orderNumber ++ "_" ++ (pad2 d.month ++ "-" ++ pad2 d.day) ++ ".pdf"⟩

/-- Fallback path used by the Amazon download handler when no purchase date
is known (lines 1855-1870): `<output>/downloads/unknown_date/` with a
timestamped file name; `tick` stands for `datetime.now().strftime(...)`,
strictly increasing between downloads. -/
def amazonUnknownDatePath (outputDir : String) (orderNumber : String) (tick : Nat) : FsFile :=
  ⟨[outputDir, "downloads", "unknown_date"],
   "amazon_invoice_" ++ orderNumber ++ "_" ++ toString tick ++ ".pdf"⟩

/-- The Amazon per-order body of `scrape_amazon` restricted to its
filesystem effect, one invoice link per order (lines 2093-2113 plus the
handler at 1832-1870): with a known purchase date, an existing file at the
exact target path makes the loop `continue` (skip this invoice, keep
enumerating); otherwise the click's download is saved there.  With no
purchase date the handler always saves a timestamped file. -/
def amazonProcessOrders (outputDir : String) (now : Date) :
    Nat → List Order → List FsFile → List FsFile
  | _, [], fs => fs
  | tick, o :: rest, fs =>
      match o.purchaseDate with
      | some d =>
          let target := amazonInvoicePath o.orderNumber d now
          if target ∈ fs then
            amazonProcessOrders outputDir now tick rest fs
          else
            amazonProcessOrders outputDir now tick rest (fs ++ [target])
      | none =>
          amazonProcessOrders outputDir now (tick + 1) rest
            (fs ++ [amazonUnknownDatePath outputDir o.orderNumber tick])

theorem mem_writeFile {fs : List FsFile} {x f : FsFile} (h : x ∈ fs) :
    x ∈ writeFile fs f := by
  unfold writeFile
  split
  · exact h
  · exact List.mem_append_left _ h

theorem mem_walmartProcessOrders (company : String) (now : Date)
    (orders : List Order) {fs : List FsFile} {x : FsFile} (h : x ∈ fs) :
    x ∈ walmartProcessOrders company now orders fs := by
  induction orders generalizing fs with
  | nil => exact h
  | cons o rest ih =>
      by_cases hc : checkInvoiceExists fs (getInvoiceDirectory company o.purchaseDate now)
          o.orderNumber
      · simpa [walmartProcessOrders, hc] using h
      · simpa [walmartProcessOrders, hc] using ih (mem_writeFile h)

theorem mem_amazonProcessOrders (outputDir : String) (now : Date)
    (tick : Nat) (orders : List Order) {fs : List FsFile} {x : FsFile} (h : x ∈ fs) :
    x ∈ amazonProcessOrders outputDir now tick orders fs := by
  induction orders generalizing fs tick with
  | nil => exact h
  | cons o rest ih =>
      match ho : o.purchaseDate with
      | some d =>
          by_cases hm : amazonInvoicePath o.orderNumber d now ∈ fs
          · simpa [amazonProcessOrders, ho, hm] using ih _ h
          · simpa [amazonProcessOrders, ho, hm] using ih _ (List.mem_append_left _ h)
      | none =>
          simpa [amazonProcessOrders, ho] using ih _ (List.mem_append_left _ h)

theorem walmartDedupHalts (company : String) (now : Date) (o : Order)
    (rest : List Order) (fs : List FsFile)
    (h : checkInvoiceExists fs (getInvoiceDirectory company o.purchaseDate now)
        o.orderNumber = true) :
    walmartProcessOrders company now (o :: rest) fs = fs := by
  simp [walmartProcessOrders, h]

theorem amazonDedupSkips (outputDir : String) (now : Date) (tick : Nat)
    (num : String) (d : Date) (rest : List Order) (fs : List FsFile)
    (h : amazonInvoicePath num d now ∈ fs) :
    amazonProcessOrders outputDir now tick (⟨num, some d⟩ :: rest) fs =
      amazonProcessOrders outputDir now tick rest fs := by
  simp [amazonProcessOrders, h]

theorem amazonPathSaved (outputDir : String) (now : Date) (tick : Nat)
    (orders : List Order) (fs : List FsFile) (o : Order) (d : Date)
    (ho : o ∈ orders) (hd : o.purchaseDate = some d) :
    amazonInvoicePath o.orderNumber d now ∈
      amazonProcessOrders outputDir now tick orders fs := by
  induction orders generalizing fs tick with
  | nil => cases ho
  | cons o' rest ih =>
      rcases List.mem_cons.mp ho with rfl | hmem
      · by_cases hm : amazonInvoicePath o.orderNumber d now ∈ fs
        · simpa [amazonProcessOrders, hd, hm] using
            mem_amazonProcessOrders outputDir now tick rest hm
        · simpa [amazonProcessOrders, hd, hm] using
            mem_amazonProcessOrders outputDir now tick rest
              (List.mem_append_right fs (List.mem_singleton.mpr rfl))
      · match ho' : o'.purchaseDate with
        | some d' =>
            by_cases hm : amazonInvoicePath o'.orderNumber d' now ∈ fs
            · simpa [amazonProcessOrders, ho', hm] using ih _ _ hmem
            · simpa [amazonProcessOrders, ho', hm] using ih _ _ hmem
        | none =>
            simpa [amazonProcessOrders, ho'] using ih _ _ hmem

theorem amazonNoNewFiles (outputDir : String) (now : Date) (tick : Nat)
    (orders : List Order) (fs : List FsFile)
    (h : ∀ o ∈ orders, ∃ d, o.purchaseDate = some d ∧
        amazonInvoicePath o.orderNumber d now ∈ fs) :
    amazonProcessOrders outputDir now tick orders fs = fs := by
  induction orders generalizing tick with
  | nil => rfl
  | cons o rest ih =>
      obtain ⟨d, hd, hmem⟩ := h o (List.mem_cons_self o rest)
      have := ih tick fun o' ho' => h o' (List.mem_cons_of_mem o ho')
      simpa [amazonProcessOrders, hd, hmem] using this

theorem amazonRerunNoop (outputDir : String) (now : Date) (tick tick' : Nat)
    (orders : List Order) (h : ∀ o ∈ orders, o.purchaseDate ≠ none) :
    amazonProcessOrders outputDir now tick' orders
        (amazonProcessOrders outputDir now tick orders []) =
      amazonProcessOrders outputDir now tick orders [] := by
  apply amazonNoNewFiles
  intro o ho
  match hd : o.purchaseDate with
  | none => exact absurd hd (h o ho)
  | some d =>
      exact ⟨d, rfl, amazonPathSaved outputDir now tick orders [] o d ho hd⟩

theorem charsContain_orderNumber_walmartPdfName (o : Order) (now : Date) :
    charsContain o.orderNumber.data (walmartPdfName o now).data = true := by
  match hd : o.purchaseDate with
  | some d =>
      have := charsContain_append_middle "walmart_invoice_".data o.orderNumber.data
        ("_" ++ (pad2 d.month ++ "-" ++ pad2 d.day) ++ ".pdf").data
      simpa [walmartPdfName, hd, String.data_append, List.append_assoc] using this
  | none =>
      have := charsContain_append_middle "walmart_invoice_".data o.orderNumber.data
        ("_" ++ (pad2 now.month ++ "-" ++ pad2 now.day) ++ "_unknown_purchase_date.pdf").data
      simpa [walmartPdfName, hd, String.data_append, List.append_assoc] using this

theorem walmartRerunHalts (company : String) (now : Date) (o : Order)
    (rest : List Order) (h1 : o.orderNumber ≠ "") (h2 : o.orderNumber ≠ "unknown") :
    walmartProcessOrders company now (o :: rest)
        (walmartProcessOrders company now (o :: rest) []) =
      walmartProcessOrders company now (o :: rest) [] := by
  set invoiceDir := getInvoiceDirectory company o.purchaseDate now with hdir
  set p1 : FsFile := ⟨invoiceDir, walmartPdfName o now⟩ with hp1
  have hstep : walmartProcessOrders company now (o :: rest) [] =
      walmartProcessOrders company now rest [p1] := by
    simp [walmartProcessOrders, checkInvoiceExists, writeFile, hp1, hdir]
  have hmem : p1 ∈ walmartProcessOrders company now (o :: rest) [] := by
    rw [hstep]
    exact mem_walmartProcessOrders company now rest (List.mem_singleton.mpr rfl)
  have hcheck : checkInvoiceExists (walmartProcessOrders company now (o :: rest) [])
      invoiceDir o.orderNumber = true := by
    unfold checkInvoiceExists
    rw [if_neg (by simp [h1, h2])]
    refine List.any_eq_true.mpr ⟨p1, hmem, ?_⟩
    simp [hp1, charsContain_orderNumber_walmartPdfName]
  exact walmartDedupHalts company now o rest _ hcheck

/-- C1, counterexample.  The claim says that as soon as the
invoice-existence check finds a matching file the engine stops enumerating
further orders entirely for that retailer run.  In the Amazon flow the hit
at line 2105 only executes `continue`: starting with the first order's
invoice already on disk, the run still processes the second order and
downloads its invoice, so the result differs from the input filesystem. -/
theorem amazon_dedup_does_not_halt_enumeration :
    amazonProcessOrders "out" ⟨2025, 1, 15⟩ 0
        [⟨"111-222", some ⟨2024, 7, 29⟩⟩, ⟨"333-444", some ⟨2024, 7, 28⟩⟩]
        [amazonInvoicePath "111-222" ⟨2024, 7, 29⟩ ⟨2025, 1, 15⟩] ≠
      [amazonInvoicePath "111-222" ⟨2024, 7, 29⟩ ⟨2025, 1, 15⟩] := by
  decide

/-- C1, amended.  Dedup behaviour as implemented: (1) in the Walmart flow a
hit of `_check_invoice_exists` on an order makes the run `return`, so no
further orders are enumerated and the filesystem is unchanged; (2) in the
Amazon flow an existing file at the exact target path only skips that one
invoice and enumeration continues with the remaining orders; (3) re-running
the Walmart flow against an unchanged order history halts at the first
order (whose number is extractable) and adds no files; (4) re-running the
Amazon flow against an unchanged order history adds no files provided every
order has a known purchase date (orders without one are re-downloaded under
a fresh timestamped name). -/
theorem dedup_and_idempotence_behavior :
    (∀ (company : String) (now : Date) (o : Order) (rest : List Order) (fs : List FsFile),
        checkInvoiceExists fs (getInvoiceDirectory company o.purchaseDate now)
            o.orderNumber = true →
        walmartProcessOrders company now (o :: rest) fs = fs) ∧
    (∀ (outputDir : String) (now : Date) (tick : Nat) (num : String) (d : Date)
        (rest : List Order) (fs : List FsFile),
        amazonInvoicePath num d now ∈ fs →
        amazonProcessOrders outputDir now tick (⟨num, some d⟩ :: rest) fs =
          amazonProcessOrders outputDir now tick rest fs) ∧
    (∀ (company : String) (now : Date) (o : Order) (rest : List Order),
        o.orderNumber ≠ "" → o.orderNumber ≠ "unknown" →
        walmartProcessOrders company now (o :: rest)
            (walmartProcessOrders company now (o :: rest) []) =
          walmartProcessOrders company now (o :: rest) []) ∧
    (∀ (outputDir : String) (now : Date) (tick tick' : Nat) (orders : List Order),
        (∀ o ∈ orders, o.purchaseDate ≠ none) →
        amazonProcessOrders outputDir now tick' orders
            (amazonProcessOrders outputDir now tick orders []) =
          amazonProcessOrders outputDir now tick orders []) :=
  ⟨walmartDedupHalts, amazonDedupSkips, walmartRerunHalts, amazonRerunNoop⟩

/-- C1, witness for `dedup_and_idempotence_behavior` at concrete inputs. -/
theorem dedup_and_idempotence_behavior_witness :
    (walmartProcessOrders "acme" ⟨2025, 1, 15⟩
        [⟨"555", some ⟨2024, 7, 29⟩⟩, ⟨"556", some ⟨2024, 7, 28⟩⟩]
        [⟨getInvoiceDirectory "acme" (some ⟨2024, 7, 29⟩) ⟨2025, 1, 15⟩,
          "walmart_invoice_555_07-29.pdf"⟩] =
      [⟨getInvoiceDirectory "acme" (some ⟨2024, 7, 29⟩) ⟨2025, 1, 15⟩,
          "walmart_invoice_555_07-29.pdf"⟩]) ∧
    (amazonProcessOrders "out" ⟨2025, 1, 15⟩ 3
        [⟨"666", some ⟨2024, 6, 1⟩⟩, ⟨"777", some ⟨2024, 6, 2⟩⟩]
        [amazonInvoicePath "666" ⟨2024, 6, 1⟩ ⟨2025, 1, 15⟩] =
      amazonProcessOrders "out" ⟨2025, 1, 15⟩ 3 [⟨"777", some ⟨2024, 6, 2⟩⟩]
        [amazonInvoicePath "666" ⟨2024, 6, 1⟩ ⟨2025, 1, 15⟩]) ∧
    (walmartProcessOrders "acme" ⟨2025, 1, 15⟩ [⟨"555", some ⟨2024, 7, 29⟩⟩]
        (walmartProcessOrders "acme" ⟨2025, 1, 15⟩ [⟨"555", some ⟨2024, 7, 29⟩⟩] []) =
      walmartProcessOrders "acme" ⟨2025, 1, 15⟩ [⟨"555", some ⟨2024, 7, 29⟩⟩] []) ∧
    (amazonProcessOrders "out" ⟨2025, 1, 15⟩ 1
        [⟨"888", some ⟨2024, 5, 4⟩⟩]
        (amazonProcessOrders "out" ⟨2025, 1, 15⟩ 0 [⟨"888", some ⟨2024, 5, 4⟩⟩] []) =
      amazonProcessOrders "out" ⟨2025, 1, 15⟩ 0 [⟨"888", some ⟨2024, 5, 4⟩⟩] []) := by
  refine ⟨?_, ?_, ?_, ?_⟩
  · exact dedup_and_idempotence_behavior.1 "acme" ⟨2025, 1, 15⟩
      ⟨"555", some ⟨2024, 7, 29⟩⟩ [⟨"556", some ⟨2024, 7, 28⟩⟩]
      [⟨getInvoiceDirectory "acme" (some ⟨2024, 7, 29⟩) ⟨2025, 1, 15⟩,
          "walmart_invoice_555_07-29.pdf"⟩] (by decide)
  · exact dedup_and_idempotence_behavior.2.1 "out" ⟨2025, 1, 15⟩ 3 "666" ⟨2024, 6, 1⟩
      [⟨"777", some ⟨2024, 6, 2⟩⟩]
      [amazonInvoicePath "666" ⟨2024, 6, 1⟩ ⟨2025, 1, 15⟩] (by decide)
  · exact dedup_and_idempotence_behavior.2.2.1 "acme" ⟨2025, 1, 15⟩
      ⟨"555", some ⟨2024, 7, 29⟩⟩ [] (by decide) (by decide)
  · exact dedup_and_idempotence_behavior.2.2.2 "out" ⟨2025, 1, 15⟩ 0 1
      [⟨"888", some ⟨2024, 5, 4⟩⟩] (by decide)

/-! ## Login confirmation (claim C2)

Amazon (`web_scraper.py` lines 1759-1792): after the login attempt the flow
continues when the page content shows the account menu; otherwise it
navigates to the order-history page and continues when the URL confirms it;
otherwise it navigates to the homepage and continues when the account menu
shows there; otherwise it prints "Aborting Amazon scraping." and does
`return` before any order enumeration.

Walmart (`web_scraper.py` lines 682-690): the post-authentication check is
`self.check_walmart_login(page)`; on a `False` result the code logs
"Login may have failed, but continuing anyway" and proceeds — but the class
defines no method or attribute named `check_walmart_login`, so evaluating
the call raises `AttributeError`, which the run-level handler at line 1550
catches, ending the Walmart run before order enumeration.
-/

/-- Whether a retailer run proceeds to order enumeration or ends first. -/
inductive RunCont where
  | continueRun
  | abortRun
deriving DecidableEq, Repr

/-- The Amazon post-login decision (lines 1760-1792): the three successive
confirmation probes, with `return` when all fail. -/
def amazonPostLoginCheck (contentShowsAccount ordersUrlReached homepageShowsAccount : Bool) :
    RunCont :=
  if contentShowsAccount then RunCont.continueRun
  else if ordersUrlReached then RunCont.continueRun
  else if homepageShowsAccount then RunCont.continueRun
  else RunCont.abortRun

/-- The methods defined on class `WebScraper` (`web_scraper.py`: the `def`
statements at class level, lines 13, 43, 235, 251, 271, 294, 332, 399, 519,
545, 560, 1563). -/
def webScraperMethods : List String :=
  ["__init__", "_setup_browser", "_wait_for_page_load", "_save_session",
   "_handle_download", "_verify_pdf_download", "_extract_purchase_date",
   "_extract_amazon_purchase_date", "_get_invoice_directory",
   "_check_invoice_exists", "scrape_walmart", "scrape_amazon"]

/-- The instance attributes `WebScraper.__init__` assigns (lines 14-41). -/
def webScraperInitAttrs : List String :=
  ["config", "output_dir", "timeout", "manual_timeout", "headless",
   "manual_mode", "pure_manual", "persistent_browser", "incognito_mode",
   "sessions_dir", "browser_data_dir", "walmart_session_file",
   "amazon_session_file", "walmart_profile_dir", "amazon_profile_dir"]

/-- Attribute lookup on a freshly constructed `WebScraper`: class methods
plus the `__init__`-assigned instance attributes. -/
def webScraperHasAttr (attr : String) : Bool :=
  webScraperMethods.contains attr || webScraperInitAttrs.contains attr

/-- The Walmart final login confirmation at line 683, as executed: when the
attribute `check_walmart_login` resolved, both branches of lines 684-690
would fall through and the run would continue; since it does not resolve,
the call raises and the run aborts to the handler at line 1550. -/
def walmartLoginConfirm (_checkResult : Bool) : RunCont :=
  if webScraperHasAttr "check_walmart_login" then RunCont.continueRun
  else RunCont.abortRun

/-- C2, counterexample.  The claim says every retailer run with an
unconfirmed login logs the uncertainty and continues to order enumeration.
The Amazon flow with all three confirmation probes failing executes
`return` (aborts), and the Walmart confirmation aborts through the missing
`check_walmart_login` attribute. -/
theorem unconfirmed_login_aborts :
    amazonPostLoginCheck false false false ≠ RunCont.continueRun ∧
    walmartLoginConfirm false ≠ RunCont.continueRun := by
  decide

/-- C2, amended.  The Amazon flow continues past the login phase exactly
when one of its three confirmation probes succeeds, and aborts (returns
before enumeration) otherwise; the Walmart flow's written fall-through
cannot execute because `check_walmart_login` is not an attribute of the
class, so reaching the final confirmation aborts the run via the generic
handler regardless of any check result. -/
theorem login_confirmation_behavior :
    (∀ c o h : Bool,
        amazonPostLoginCheck c o h =
          if c || o || h then RunCont.continueRun else RunCont.abortRun) ∧
    webScraperHasAttr "check_walmart_login" = false ∧
    (∀ b : Bool, walmartLoginConfirm b = RunCont.abortRun) := by
  refine ⟨?_, by decide, ?_⟩
  · intro c o h
    cases c <;> cases o <;> cases h <;> decide
  · intro b
    unfold walmartLoginConfirm
    decide

/-! ## `scrape_amazon` undefined attributes and broken handler block (claim C3)

`scrape_amazon`'s first statements (lines 1571-1572) read `self.edge_mode`,
and later `self.playwright` (1588/1598), `self._load_session` (1613),
`self.amazon_credentials` (1670/1701) and `self.max_orders` (1882) — none
of which `__init__` or the class defines, so the first such read would
raise `AttributeError` before any page navigation.

However, the `except`/`finally` block at lines 1793-1821 sits at
indentation 12, inside the body of the `try:` at line 1569 (indentation 8),
where Python requires a statement; the module therefore fails to parse
(`SyntaxError` at line 1793) and `scrape_amazon` can never be invoked, so
no handler ever swallows anything.
-/

/-- Kinds of Python statements as seen at one indentation level. -/
inductive PyStmt where
  | plain
  | tryStmt
  | exceptClause
  | finallyClause
deriving DecidableEq, Repr

/-- Python's attachment rule at a single indentation level: an `except` or
`finally` clause must directly follow, at the same indentation, the `try`
it belongs to or a previous clause of the same statement; anywhere else it
is a `SyntaxError`. -/
def okAfter (prev cur : PyStmt) : Bool :=
  match cur with
  | PyStmt.exceptClause =>
      prev = PyStmt.tryStmt ∨ prev = PyStmt.exceptClause
  | PyStmt.finallyClause =>
      prev = PyStmt.tryStmt ∨ prev = PyStmt.exceptClause
  | _ => true

def blockWellFormedFrom (prev : PyStmt) : List PyStmt → Bool
  | [] => true
  | s :: rest => okAfter prev s && blockWellFormedFrom s rest

/-- A statement suite is well formed when no `except`/`finally` clause
appears without a directly preceding `try` (or clause) at its level. -/
def blockWellFormed (stmts : List PyStmt) : Bool :=
  blockWellFormedFrom PyStmt.plain stmts

/-- The statements at indentation 12 — the body of the `try:` opened at
line 1569 of `scrape_amazon` — in source order: the assignments and `if`
statements of lines 1571-1629, then the mis-indented `except TimeoutError`
(1793), `except Exception` (1803) and `finally` (1815) clauses, then the
statements of lines 1824-2386 (prints, navigation, the download handler
`def`, the pagination `while`, and the final print). -/
def amazonTryBodyStmts : List PyStmt :=
  [PyStmt.plain,          -- 1571 browser_type = 'chromium'
   PyStmt.plain,          -- 1572 if self.edge_mode:
   PyStmt.plain,          -- 1575 browser_args = []
   PyStmt.plain,          -- 1577 browser_args.append(user agent)
   PyStmt.plain,          -- 1580 browser_args.append(accept-language)
   PyStmt.plain,          -- 1583 if self.persistent_browser: / else:
   PyStmt.plain,          -- 1606 page.set_default_timeout(self.timeout)
   PyStmt.plain,          -- 1609 session_loaded = False
   PyStmt.plain,          -- 1610 if not self.pure_manual and ...:
   PyStmt.plain,          -- 1629 if not session_loaded:
   PyStmt.exceptClause,   -- 1793 except TimeoutError as e:
   PyStmt.exceptClause,   -- 1803 except Exception as e:
   PyStmt.finallyClause,  -- 1815 finally:
   PyStmt.plain,          -- 1824 print("Navigating to orders page...")
   PyStmt.plain,          -- 1825 page.goto(order-history)
   PyStmt.plain,          -- 1826 page.wait_for_load_state
   PyStmt.plain,          -- 1829 self.current_order_number = "unknown"
   PyStmt.plain,          -- 1830 self.current_purchase_date = None
   PyStmt.plain,          -- 1832 def download_handler(download):
   PyStmt.plain,          -- 1873 page.on('download', download_handler)
   PyStmt.plain,          -- 1875 print("Looking for orders ...")
   PyStmt.plain,          -- 1878 current_page = 1
   PyStmt.plain,          -- 1879 has_more_pages = True
   PyStmt.plain,          -- 1880 processed_orders = 0
   PyStmt.plain,          -- 1881 total_orders_processed = 0
   PyStmt.plain,          -- 1882 max_orders_to_process = ...
   PyStmt.plain,          -- 1885 while has_more_pages and ...:
   PyStmt.plain]          -- 2386 print("Finished processing ...")

/-- One step of `scrape_amazon` before any download can happen: reading an
instance attribute, launching the browser, or a page navigation. -/
inductive AmazonOp where
  | readAttr (attr : String)
  | launchBrowser
  | navigate (url : String)
deriving DecidableEq, Repr

/-- The operations of `scrape_amazon`'s prologue up to its first page
navigation, in source order, on the default (non-persistent,
session-file-present) path: lines 1571-1616. -/
def amazonPrologueOps : List AmazonOp :=
  [AmazonOp.readAttr "edge_mode",            -- 1572
   AmazonOp.readAttr "persistent_browser",   -- 1583
   AmazonOp.readAttr "playwright",           -- 1598
   AmazonOp.readAttr "manual_mode",          -- 1598
   AmazonOp.launchBrowser,                   -- 1598
   AmazonOp.readAttr "timeout",              -- 1606
   AmazonOp.readAttr "pure_manual",          -- 1610
   AmazonOp.readAttr "amazon_session_file",  -- 1610
   AmazonOp.readAttr "_load_session",        -- 1613
   AmazonOp.navigate "https://www.amazon.com/"]  -- 1616

/-- The first attribute read that fails to resolve on the instance
(execution raises `AttributeError` there). -/
def firstFailingAttr : List AmazonOp → Option String
  | [] => none
  | AmazonOp.readAttr a :: rest =>
      if webScraperHasAttr a then firstFailingAttr rest else some a
  | _ :: rest => firstFailingAttr rest

/-- The operations that actually execute before the first failing
attribute read (everything, if none fails). -/
def opsBeforeFailure : List AmazonOp → List AmazonOp
  | [] => []
  | AmazonOp.readAttr a :: rest =>
      if webScraperHasAttr a then AmazonOp.readAttr a :: opsBeforeFailure rest
      else []
  | op :: rest => op :: opsBeforeFailure rest

/-- C3, counterexample.  The claim says the `AttributeError` raised inside
`scrape_amazon` is swallowed by the method's generic exception handler and
the call returns normally.  No such handler is attached: the `except`
clauses at lines 1793-1821 appear at indentation 12 directly after the `if`
statement of line 1629 rather than after a `try` at their level, so the
statement suite that would carry the handler is not well-formed Python —
the module fails to parse and `scrape_amazon` cannot run at all. -/
theorem amazon_handler_block_malformed :
    blockWellFormed amazonTryBodyStmts = false := by
  decide

/-- C3, amended.  `scrape_amazon`'s very first operation reads
`self.edge_mode`, which neither `__init__` nor the class defines — as do
`playwright`, `amazon_credentials`, `max_orders` and `_load_session` — so
if the method executed, nothing (in particular no page navigation) would
run before an `AttributeError`; but the mis-indented `except`/`finally`
block at lines 1793-1821 makes the module itself invalid Python, so the
call can never be made and no generic handler swallows the error; no
invoice is ever downloaded because the module does not even import. -/
theorem amazon_undefined_attrs_and_no_handler :
    firstFailingAttr amazonPrologueOps = some "edge_mode" ∧
    opsBeforeFailure amazonPrologueOps = [] ∧
    webScraperHasAttr "edge_mode" = false ∧
    webScraperHasAttr "playwright" = false ∧
    webScraperHasAttr "amazon_credentials" = false ∧
    webScraperHasAttr "max_orders" = false ∧
    webScraperHasAttr "_load_session" = false ∧
    blockWellFormed amazonTryBodyStmts = false := by
  decide

/-! ## Browser teardown (claim C4)

`_setup_browser` (lines 80-233): in persistent-profile mode it launches a
persistent context and returns `(None, context)` — `browser_obj = None` at
line 143; in ephemeral mode it returns `(browser_obj, context)` with the
launched browser.  `scrape_walmart` tears down in `finally:` with
`if browser: browser.close()` (lines 1559-1561), which every exit path of
the `try` (normal completion, the dedup `return`s, and the two `except`
arms) reaches exactly once.
-/

/-- The first component of `_setup_browser`'s return value: the browser
object, or `None` in persistent-profile mode (line 143). -/
def setupBrowserBrowserObj (persistent : Bool) : Option Unit :=
  if persistent then none else some ()

/-- The ways `scrape_walmart`'s `try` block can be left; all of them run
the `finally` at line 1559. -/
inductive WalmartExit where
  | normalCompletion
  | dedupReturn
  | timeoutError
  | otherError
deriving DecidableEq, Repr

/-- Number of `browser.close()` calls performed by `scrape_walmart`'s
teardown (lines 1559-1561) for a given mode and exit path: the `finally`
runs once on every path and closes iff `browser` is not `None`. -/
def walmartBrowserCloseCount (persistent : Bool) (_exit : WalmartExit) : Nat :=
  match setupBrowserBrowserObj persistent with
  | some _ => 1
  | none => 0

/-- C4, counterexample.  The claim says the session is closed exactly once
on every exit path in both modes.  In persistent-profile mode
`_setup_browser` returns `None` for the browser object, so the `finally`
closes nothing: the close count on a normal completion is 0, not 1. -/
theorem persistent_mode_never_closes :
    walmartBrowserCloseCount true WalmartExit.normalCompletion ≠ 1 := by
  decide

/-- C4, amended.  In ephemeral mode the Walmart flow closes its browser
exactly once on every exit path (normal completion, dedup `return`, and
both error arms all reach the single `finally`); in persistent-profile
mode the `finally`'s `browser` variable is `None`, so the persistent
context is never closed on any path.  (The Amazon flow's teardown lies in
the mis-indented handler block of lines 1793-1821 and the module does not
parse; see C3.) -/
theorem walmart_teardown_behavior :
    (∀ e : WalmartExit, walmartBrowserCloseCount false e = 1) ∧
    (∀ e : WalmartExit, walmartBrowserCloseCount true e = 0) := by
  constructor <;> intro e <;> cases e <;> decide

/-! ## Pagination ceilings and empty pages (claims C5, C6)

The Walmart pagination loop (`while has_more_pages:`, lines 772-1537)
advances in four different ways:
* page-number button (lines 1447-1486): `current_page += 1`,
  `has_more_pages = True`, then `continue` at line 1486 — the ceiling check
  at lines 1528-1531 is **skipped**;
* generic next button (lines 1491-1526): `current_page += 1`, then the
  ceiling check at 1528 runs (`if current_page > 10: has_more_pages = False`);
* JavaScript-found orders on a page whose selectors all failed (lines
  872-1021): `current_page += 1; continue` — ceiling skipped;
* no orders found at all (lines 1025-1067): direct `page.goto` of the next
  page then `continue` — ceiling skipped (on failure of every navigation
  attempt, `has_more_pages = False` at line 1067).

The Amazon pagination loop (lines 1885-2384) always falls through to its
ceiling check at lines 2381-2384 (`if current_page > 20`), and ends when no
next-page control is found or the control is disabled (lines 2345-2379).
-/

/-- How one iteration of the Walmart loop observes the site and advances. -/
inductive WalmartPageObs where
  | pageNumBtn   -- next-page number button found and clicked (continue path)
  | nextBtn      -- generic next button found and clicked (ceiling path)
  | jsOrders     -- selectors failed, JavaScript found order links (continue path)
  | emptyGotoOk  -- no orders found, direct goto of next page succeeded (continue path)
  | noNext       -- no next-page control of any kind
deriving DecidableEq, Repr

/-- One iteration of the Walmart loop at page `cur`: `some next` when the
loop will run again with `current_page = next`, `none` when it exits. -/
def walmartLoopStep (cur : Nat) : WalmartPageObs → Option Nat
  | WalmartPageObs.pageNumBtn => some (cur + 1)
  | WalmartPageObs.nextBtn => if cur + 1 > 10 then none else some (cur + 1)
  | WalmartPageObs.jsOrders => some (cur + 1)
  | WalmartPageObs.emptyGotoOk => some (cur + 1)
  | WalmartPageObs.noNext => none

def walmartPagesFrom (cur : Nat) : List WalmartPageObs → Nat
  | [] => 0
  | obs :: rest =>
      match walmartLoopStep cur obs with
      | some next => 1 + walmartPagesFrom next rest
      | none => 1

/-- Number of listing pages the Walmart loop processes, starting at page 1
(line 766), when the site behaves per the given observation sequence. -/
def walmartPagesProcessed (obs : List WalmartPageObs) : Nat :=
  walmartPagesFrom 1 obs

/-- What one Amazon listing page offers: whether any order-element selector
matched, and the state of the next-page control. -/
inductive AmazonNextCtl where
  | enabled
  | disabled
  | missing
deriving DecidableEq, Repr

structure AmazonPageObs where
  ordersFound : Bool
  nextCtl : AmazonNextCtl
deriving DecidableEq, Repr

/-- One iteration of the Amazon loop at page `cur` (lines 1885-2384):
orders (if any) are processed, then the next-page control decides
continuation, then the `current_page > 20` ceiling always runs. -/
def amazonLoopStep (cur : Nat) (obs : AmazonPageObs) : Option Nat :=
  match obs.nextCtl with
  | AmazonNextCtl.enabled => if cur + 1 > 20 then none else some (cur + 1)
  | AmazonNextCtl.disabled => none
  | AmazonNextCtl.missing => none

def amazonPagesFrom (cur : Nat) : List AmazonPageObs → Nat
  | [] => 0
  | obs :: rest =>
      match amazonLoopStep cur obs with
      | some next => 1 + amazonPagesFrom next rest
      | none => 1

/-- Number of listing pages the Amazon loop processes, starting at page 1
(line 1878). -/
def amazonPagesProcessed (obs : List AmazonPageObs) : Nat :=
  amazonPagesFrom 1 obs

theorem amazonPagesFrom_le (obs : List AmazonPageObs) (cur : Nat)
    (h : cur ≤ 20) : amazonPagesFrom cur obs ≤ 21 - cur := by
  induction obs generalizing cur with
  | nil => simp [amazonPagesFrom]
  | cons o rest ih =>
      match hc : o.nextCtl with
      | AmazonNextCtl.enabled =>
          by_cases hcur : cur + 1 > 20
          · simp only [amazonPagesFrom, amazonLoopStep, hc, if_pos hcur]
            omega
          · simp only [amazonPagesFrom, amazonLoopStep, hc, if_neg hcur]
            have := ih (cur + 1) (by omega)
            omega
      | AmazonNextCtl.disabled =>
          simp only [amazonPagesFrom, amazonLoopStep, hc]
          omega
      | AmazonNextCtl.missing =>
          simp only [amazonPagesFrom, amazonLoopStep, hc]
          omega

theorem walmartPagesFrom_nextBtn_le (n cur : Nat) (h1 : 1 ≤ cur) (h2 : cur ≤ 10) :
    walmartPagesFrom cur (List.replicate n WalmartPageObs.nextBtn) ≤ 11 - cur := by
  induction n generalizing cur with
  | zero => simp [walmartPagesFrom]
  | succ m ih =>
      by_cases hcur : cur + 1 > 10
      · simp only [List.replicate, walmartPagesFrom, walmartLoopStep, if_pos hcur]
        omega
      · simp only [List.replicate, walmartPagesFrom, walmartLoopStep, if_neg hcur]
        have := ih (cur + 1) (by omega) (by omega)
        omega

/-- C5, counterexample.  The claim says the Walmart flow processes at most
10 listing pages regardless of the site's "has more" state.  When every
page advances through the page-number-button path, whose `continue` at line
1486 skips the ceiling check of lines 1528-1531, eleven pages are
processed. -/
theorem walmart_ceiling_bypassed :
    ¬ walmartPagesProcessed (List.replicate 11 WalmartPageObs.pageNumBtn) ≤ 10 := by
  decide

/-- C5, amended.  The Amazon loop processes at most 20 listing pages on
every observation sequence (its ceiling check is reached on every
iteration).  The Walmart ceiling of 10 holds only for iterations that reach
the end-of-loop check — e.g. runs advancing solely via the generic next
button; iterations that advance via a page-number button, the JavaScript
fallback or direct URL navigation `continue` past the check, so the Walmart
flow can exceed 10 pages. -/
theorem pagination_ceiling_behavior :
    (∀ obs : List AmazonPageObs, amazonPagesProcessed obs ≤ 20) ∧
    (∀ n : Nat,
        walmartPagesProcessed (List.replicate n WalmartPageObs.nextBtn) ≤ 10) := by
  constructor
  · intro obs
    have := amazonPagesFrom_le obs 1 (by omega)
    unfold amazonPagesProcessed
    omega
  · intro n
    have := walmartPagesFrom_nextBtn_le n 1 (by omega) (by omega)
    unfold walmartPagesProcessed
    omega

/-- C6, counterexample.  The claim says a listing page on which no selector
yields matches terminates enumeration (page 1: retailer has no orders;
later page: pagination ends).  In the Walmart flow an empty page 1 instead
triggers direct navigation to page 2 (lines 1026-1036) and the loop
processes a second page. -/
theorem empty_page_does_not_terminate :
    walmartPagesProcessed [WalmartPageObs.emptyGotoOk, WalmartPageObs.noNext] ≠ 1 := by
  decide

/-- C6, amended.  A page with no order matches does not by itself
terminate enumeration: the Walmart loop navigates directly to the next
page and continues whenever that navigation succeeds (page 1 included),
and the Amazon loop continues past an orderless page whenever an enabled
next-page control is present (within its 20-page ceiling); the Amazon loop
ends — without raising — only when the next-page control is missing or
disabled. -/
theorem empty_page_behavior :
    (∀ cur : Nat, walmartLoopStep cur WalmartPageObs.emptyGotoOk = some (cur + 1)) ∧
    (∀ cur : Nat, ∀ b : Bool,
        amazonLoopStep cur ⟨b, AmazonNextCtl.enabled⟩ =
          if cur + 1 > 20 then none else some (cur + 1)) ∧
    (∀ cur : Nat, ∀ b : Bool,
        amazonLoopStep cur ⟨b, AmazonNextCtl.missing⟩ = none) ∧
    (∀ cur : Nat, ∀ b : Bool,
        amazonLoopStep cur ⟨b, AmazonNextCtl.disabled⟩ = none) := by
  refine ⟨fun cur => rfl, fun cur b => rfl, fun cur b => rfl, fun cur b => rfl⟩

/-! ## Download handler (claim C7)

`WebScraper._handle_download` (`web_scraper.py` lines 271-292): prepend the
prefix (when non-empty) to the suggested filename and `download.save_as`
the result — no existence check and no suffixing of any kind.  The
standalone variant in `download_handler_code.py` (lines 2-33) additionally
sanitizes filesystem-illegal characters to `_`, substitutes
`<prefix><timestamp>.pdf` for an empty name, and skips the prefix when
already present — and likewise saves with no collision handling.
`save_as` writes to the given path, replacing any file already there.
-/

/-- A saved file with an identifier for which download's bytes it holds. -/
structure SavedFile where
  path : FsFile
  content : Nat
deriving DecidableEq, Repr

/-- `download.save_as(path)`: persist the download at `path`, replacing
whatever was there. -/
def saveAs (fs : List SavedFile) (p : FsFile) (c : Nat) : List SavedFile :=
  (fs.filter fun f => decide (f.path ≠ p)) ++ [⟨p, c⟩]

/-- The file name `_handle_download` builds (lines 278-285): the prefix, if
non-empty, prepended to the suggested name. -/
def handleDownloadName (suggested pre : String) : String :=
  if pre ≠ "" then pre ++ suggested else suggested

/-- `WebScraper._handle_download`: returns the final path and the updated
directory contents. -/
def handleDownload (fs : List SavedFile) (dirSegs : List String)
    (suggested pre : String) (c : Nat) : FsFile × List SavedFile :=
  let p : FsFile := ⟨dirSegs, handleDownloadName suggested pre⟩
  (p, saveAs fs p c)

/-- Code points replaced by `_` by the standalone handler's
`re.sub(r'[\\/*?:"<>|]', '_', ...)`. -/
def illegalFilenameCharCodes : List Nat := [92, 47, 42, 63, 58, 34, 60, 62, 124]

def sanitizeFilename (s : String) : String :=
  ⟨s.data.map fun c => if c.toNat ∈ illegalFilenameCharCodes then '_' else c⟩

/-- The file name built by `download_handler_code._handle_download` (lines
13-20): sanitize; an empty result becomes `<prefix><timestamp>.pdf`; a
result not already starting with the prefix gets it prepended. -/
def handleDownloadDHCName (suggested pre stamp : String) : String :=
  let clean := sanitizeFilename suggested
  if clean = "" then pre ++ stamp ++ ".pdf"
  else if pre.data.isPrefixOf clean.data then clean
  else pre ++ clean

/-- `download_handler_code._handle_download`: final path and updated
directory contents. -/
def handleDownloadDHC (fs : List SavedFile) (dirSegs : List String)
    (suggested pre stamp : String) (c : Nat) : FsFile × List SavedFile :=
  let p : FsFile := ⟨dirSegs, handleDownloadDHCName suggested pre stamp⟩
  (p, saveAs fs p c)

/-- C7, counterexample.  The claim says that when the computed path already
exists the handler appends an incrementing numeric suffix until unique, so
a second download with the same suggested name never overwrites the first.
Saving the same suggested name twice into the same directory returns the
identical path both times and leaves a single file holding the second
download's bytes — the first is overwritten — in both handler versions
(the standalone version even with different timestamps). -/
theorem same_name_download_overwrites :
    ((handleDownload (handleDownload [] ["d"] "invoice.pdf" "walmart_invoice_123_" 1).2
        ["d"] "invoice.pdf" "walmart_invoice_123_" 2).1 =
      (handleDownload [] ["d"] "invoice.pdf" "walmart_invoice_123_" 1).1) ∧
    ((handleDownload (handleDownload [] ["d"] "invoice.pdf" "walmart_invoice_123_" 1).2
        ["d"] "invoice.pdf" "walmart_invoice_123_" 2).2 =
      [⟨⟨["d"], "walmart_invoice_123_invoice.pdf"⟩, 2⟩]) ∧
    ((handleDownloadDHC (handleDownloadDHC [] ["d"] "invoice.pdf" "amazon_"
          "20240101_000000" 1).2
        ["d"] "invoice.pdf" "amazon_" "20240101_000001" 2).2 =
      [⟨⟨["d"], "amazon_invoice.pdf"⟩, 2⟩]) := by
  decide

/-- C7, amended.  `_handle_download` performs no collision handling: the
final path is a deterministic function of directory, suggested name and
prefix, a repeated save returns the identical path, and after the second
save exactly one file exists at that path, holding the second download's
bytes (the suffix-until-unique renaming exists only in the out-of-scope
mail-attachment extractor). -/
theorem download_collision_behavior :
    ∀ (dirSegs : List String) (suggested pre : String) (c1 c2 : Nat)
      (fs : List SavedFile),
      ((handleDownload (handleDownload fs dirSegs suggested pre c1).2
          dirSegs suggested pre c2).1 =
        (handleDownload fs dirSegs suggested pre c1).1) ∧
      ((handleDownload (handleDownload fs dirSegs suggested pre c1).2
          dirSegs suggested pre c2).2 =
        (fs.filter fun f =>
            decide (f.path ≠ ⟨dirSegs, handleDownloadName suggested pre⟩)) ++
          [⟨⟨dirSegs, handleDownloadName suggested pre⟩, c2⟩]) := by
  intro dirSegs suggested pre c1 c2 fs
  refine ⟨rfl, ?_⟩
  simp [handleDownload, saveAs, List.filter_append, List.filter_filter]

/-! ## Invoice directory layout (claim C8) -/

/-- Formalisation of C8's claimed layout, from the claim's words: a known
purchase date maps to `downloads/<company>/<retailer>/<year>/<month-abbrev>/`
and an undeterminable one to a sibling `unknown_date` directory.  Stated
only to be compared against `getInvoiceDirectory`, which is translated
from the code. -/
def claimedArchiveDir (company retailer : String) (purchaseDate : Option Date) :
    List String :=
  match purchaseDate with
  | some d => ["downloads", company, retailer, toString d.year, monthAbbrev d.month]
  | none => ["downloads", company, retailer, "unknown_date"]

/-- C8, counterexample.  For the Walmart call site
(`self._get_invoice_directory(self.config.name, purchase_date)`, line 1171)
the computed directory has no retailer segment at all —
`downloads/acme/2024/07-Jul` (4 segments, against the claim's 5) — so it
differs from the claimed `downloads/<company>/<retailer>/<year>/<month>`
layout. -/
theorem archive_dir_has_no_retailer_segment :
    getInvoiceDirectory "acme" (some ⟨2024, 7, 29⟩) ⟨2025, 1, 15⟩ =
      ["downloads", "acme", "2024", "07-Jul"] ∧
    getInvoiceDirectory "acme" (some ⟨2024, 7, 29⟩) ⟨2025, 1, 15⟩ ≠
      claimedArchiveDir "acme" "walmart" (some ⟨2024, 7, 29⟩) := by
  decide

/-- C8, amended.  `_get_invoice_directory` returns
`downloads/<company-arg>/<year>/<MM-Mon>/` for a known purchase date, where
the Walmart flow passes the company name and the Amazon flow passes the
literal string `"amazon"` (the path never holds both a company and a
retailer segment); for an undeterminable date it returns
`downloads/<company-arg>/<current year>/<current MM-Mon>/unknown_date/` —
a subdirectory of the current month's directory, not a sibling. -/
theorem invoice_directory_layout :
    (∀ (company : String) (d now : Date),
        getInvoiceDirectory company (some d) now =
          ["downloads", company, toString d.year,
           pad2 d.month ++ "-" ++ monthAbbrev d.month]) ∧
    (∀ (company : String) (now : Date),
        getInvoiceDirectory company none now =
          getInvoiceDirectory company (some now) now ++ ["unknown_date"]) ∧
    (∀ (num : String) (d now : Date),
        (amazonInvoicePath num d now).dir = getInvoiceDirectory "amazon" (some d) now) ∧
    getInvoiceDirectory "acme" (some ⟨2024, 7, 29⟩) ⟨2025, 1, 15⟩ =
      ["downloads", "acme", "2024", "07-Jul"] := by
  refine ⟨fun company d now => rfl, fun company now => rfl, fun num d now => rfl, by decide⟩

/-! ## PDF verification (claim C9)

`WebScraper._verify_pdf_download` (`web_scraper.py` lines 294-330): reject
a missing file; reject a zero-size file; then try PyPDF2 — on
`ImportError` skip the page check and fall through to `return True`; on a
read error return `False`; on zero pages return `False`; otherwise `True`.
It prints the size but has no minimum-size warning.

The standalone `_verify_pdf_download` (`pdf_handling_code.py` lines 2-30):
`os.path.getsize` on a missing file raises into the outer handler
(`False`); a size under 1000 bytes prints a warning; with PyPDF2 the result
is `num_pages > 0` (a read error gives `False`); without PyPDF2 it returns
`file_size > 1000`.
-/

/-- Outcome of the PyPDF2 probe: the library is not importable, the file
cannot be read as a PDF, or it reads with `n` pages. -/
inductive PdfProbe where
  | unavailable
  | readError
  | pages (n : Nat)
deriving DecidableEq, Repr

/-- Verification verdict plus whether a size warning was printed. -/
structure VerifyOutcome where
  accepted : Bool
  warned : Bool
deriving DecidableEq, Repr

/-- `WebScraper._verify_pdf_download` (lines 294-330). -/
def verifyPdfDownload (fileExists : Bool) (size : Nat) (probe : PdfProbe) :
    VerifyOutcome :=
  if fileExists = false then ⟨false, false⟩
  else if size = 0 then ⟨false, false⟩
  else
    match probe with
    | PdfProbe.unavailable => ⟨true, false⟩
    | PdfProbe.readError => ⟨false, false⟩
    | PdfProbe.pages n => if n = 0 then ⟨false, false⟩ else ⟨true, false⟩

/-- `pdf_handling_code._verify_pdf_download` (lines 2-30). -/
def verifyPdfDownloadStandalone (fileExists : Bool) (size : Nat) (probe : PdfProbe) :
    VerifyOutcome :=
  if fileExists = false then ⟨false, false⟩
  else
    let warned := decide (size < 1000)
    match probe with
    | PdfProbe.unavailable => ⟨decide (size > 1000), warned⟩
    | PdfProbe.readError => ⟨false, warned⟩
    | PdfProbe.pages n => ⟨decide (n > 0), warned⟩

/-- C9, counterexample.  The claim says a file below the minimum plausible
size, with no document-structure inspection available, is warned about but
still accepted.  At 500 bytes with PyPDF2 unavailable the standalone
verifier warns and **rejects** (`500 > 1000` is false), while the
`web_scraper` verifier accepts but never warns (it has no size
threshold) — neither behaves as claimed. -/
theorem small_pdf_not_warned_and_accepted :
    verifyPdfDownloadStandalone true 500 PdfProbe.unavailable =
      ⟨false, true⟩ ∧
    verifyPdfDownload true 500 PdfProbe.unavailable = ⟨true, false⟩ := by
  decide

/-- C9, amended.  Both verifiers reject a missing file; both reject a
zero-length file (the standalone one whenever reading it as a PDF fails or
PyPDF2 is absent); both accept a readable document with at least one page.
For a sub-1000-byte file with PyPDF2 unavailable the `web_scraper` verifier
accepts without warning, whereas the standalone verifier warns but rejects
any file not strictly larger than 1000 bytes. -/
theorem pdf_verification_behavior :
    (∀ (size : Nat) (p : PdfProbe), verifyPdfDownload false size p = ⟨false, false⟩) ∧
    (∀ p : PdfProbe, (verifyPdfDownload true 0 p).accepted = false) ∧
    (∀ size n : Nat,
        verifyPdfDownload true (size + 1) (PdfProbe.pages (n + 1)) = ⟨true, false⟩) ∧
    (∀ size : Nat, verifyPdfDownload true (size + 1) PdfProbe.unavailable = ⟨true, false⟩) ∧
    (∀ (size : Nat) (p : PdfProbe),
        verifyPdfDownloadStandalone false size p = ⟨false, false⟩) ∧
    (verifyPdfDownloadStandalone true 0 PdfProbe.unavailable = ⟨false, true⟩) ∧
    (verifyPdfDownloadStandalone true 0 PdfProbe.readError = ⟨false, true⟩) ∧
    (∀ s : Fin 1000,
        verifyPdfDownloadStandalone true s.val PdfProbe.unavailable = ⟨false, true⟩) ∧
    (∀ size n : Nat,
        (verifyPdfDownloadStandalone true size (PdfProbe.pages (n + 1))).accepted = true) := by
  refine ⟨?_, ?_, ?_, ?_, ?_, by decide, by decide, ?_, ?_⟩
  · intro size p
    simp [verifyPdfDownload]
  · intro p
    simp [verifyPdfDownload]
  · intro size n
    simp [verifyPdfDownload]
  · intro size
    simp [verifyPdfDownload]
  · intro size p
    simp [verifyPdfDownloadStandalone]
  · intro s
    have h1 : s.val < 1000 := s.isLt
    have h2 : ¬ s.val > 1000 := by omega
    simp [verifyPdfDownloadStandalone, h1, h2]
  · intro size n
    simp [verifyPdfDownloadStandalone]

/-! ## Purchase-date parsing (claim C10)

`_extract_purchase_date` (`web_scraper.py` lines 360-372) tries, in order,
the `datetime.strptime` formats `"%b %d, %Y"`, `"%m/%d/%Y"`, `"%m/%d/%y"`
on the extracted date string, returning the first that parses.
`_extract_amazon_purchase_date` (lines 436-451) tries `'%B %d, %Y'`,
`'%b %d, %Y'`, `'%m/%d/%Y'`, `'%m/%d/%y'`, `'%m-%d-%Y'`, `'%m-%d-%y'`.

The model below follows CPython's `_strptime`: a format compiles to a
sequence of directives matched left to right over the whole string, with
regex-alternation backtracking;
* `%b` / `%B` match a month name case-insensitively;
* `%m` matches `1[0-2]|0[1-9]|[1-9]` (one or two digits, 1-12);
* `%d` matches `3[01]|[12]\d|0[1-9]|[1-9]` (one or two digits, 1-31);
* `%Y` matches exactly four digits, `%y` exactly two, with the POSIX pivot
  (00-68 maps to 20xx, 69-99 to 19xx);
* whitespace in the format matches a run of whitespace;
* the entire input must be consumed, else `ValueError` and the next format
  is tried.
(The final `datetime(...)` calendar validation, which every regex-accepted
match below also satisfies for the claim's inputs, is not re-modelled.)
-/

/-- One directive of a compiled strptime format. -/
inductive FmtDir where
  | lit (c : Char)
  | ws
  | monthAbbr
  | monthFull
  | monthNum
  | dayNum
  | year4
  | year2
deriving DecidableEq, Repr

def monthAbbrevNames : List String :=
  ["Jan", "Feb", "Mar", "Apr", "May", "Jun",
   "Jul", "Aug", "Sep", "Oct", "Nov", "Dec"]

def monthFullNames : List String :=
  ["January", "February", "March", "April", "May", "June", "July",
   "August", "September", "October", "November", "December"]

/-- Case-insensitive prefix match returning the unconsumed rest. -/
def ciPrefixRest : List Char → List Char → Option (List Char)
  | [], cs => some cs
  | _ :: _, [] => none
  | p :: ps, c :: cs =>
      if p.toLower = c.toLower then ciPrefixRest ps cs else none

/-- Match one of the month names (1-based), first alternative wins. -/
def matchMonthAux : List String → Nat → List Char → List (Nat × List Char)
  | [], _, _ => []
  | nm :: rest, i, cs =>
      match ciPrefixRest nm.data cs with
      | some restCs => [(i, restCs)]
      | none => matchMonthAux rest (i + 1) cs

def digitVal (c : Char) : Nat := c.toNat - 48

/-- A two-digit number in `[lo, hi]` (the two-digit alternatives of the
`%m` / `%d` regexes). -/
def take2DigitsIn (lo hi : Nat) : List Char → List (Nat × List Char)
  | d1 :: d2 :: rest =>
      if d1.isDigit && d2.isDigit then
        let v := 10 * digitVal d1 + digitVal d2
        if lo ≤ v && v ≤ hi then [(v, rest)] else []
      else []
  | _ => []

/-- A single non-zero digit (the `[1-9]` alternative). -/
def take1DigitPos : List Char → List (Nat × List Char)
  | d1 :: rest =>
      if d1.isDigit && decide (1 ≤ digitVal d1) then [(digitVal d1, rest)] else []
  | [] => []

/-- Exactly four digits (`%Y`). -/
def take4Digits : List Char → List (Nat × List Char)
  | a :: b :: c :: d :: rest =>
      if a.isDigit && b.isDigit && c.isDigit && d.isDigit then
        [(1000 * digitVal a + 100 * digitVal b + 10 * digitVal c + digitVal d, rest)]
      else []
  | _ => []

/-- The candidate matches of one directive against the input, with the
date-record update each induces, in regex-alternation order. -/
def dirParses (acc : Date) : FmtDir → List Char → List (Date × List Char)
  | FmtDir.lit c, x :: rest => if x = c then [(acc, rest)] else []
  | FmtDir.lit _, [] => []
  | FmtDir.ws, cs =>
      match cs with
      | x :: _ =>
          if x.isWhitespace then [(acc, cs.dropWhile Char.isWhitespace)] else []
      | [] => []
  | FmtDir.monthAbbr, cs =>
      (matchMonthAux monthAbbrevNames 1 cs).map fun mr => ({acc with month := mr.1}, mr.2)
  | FmtDir.monthFull, cs =>
      (matchMonthAux monthFullNames 1 cs).map fun mr => ({acc with month := mr.1}, mr.2)
  | FmtDir.monthNum, cs =>
      (take2DigitsIn 1 12 cs ++ take1DigitPos cs).map fun mr =>
        ({acc with month := mr.1}, mr.2)
  | FmtDir.dayNum, cs =>
      (take2DigitsIn 1 31 cs ++ take1DigitPos cs).map fun mr =>
        ({acc with day := mr.1}, mr.2)
  | FmtDir.year4, cs =>
      (take4Digits cs).map fun mr => ({acc with year := mr.1}, mr.2)
  | FmtDir.year2, cs =>
      (take2DigitsIn 0 99 cs).map fun mr =>
        ({acc with year := if mr.1 ≤ 68 then 2000 + mr.1 else 1900 + mr.1}, mr.2)

/-- Advance every pending partial match by one directive, keeping the
alternation-priority order: states are processed in order and each yields
its candidates in order, so the resulting list enumerates complete matches
exactly as regex backtracking would. -/
def stepDir (states : List (Date × List Char)) (d : FmtDir) :
    List (Date × List Char) :=
  states.flatMap fun st => dirParses st.1 d st.2

/-- All full matches of a directive sequence against the input, in
backtracking order, starting from the CPython default accumulator
(year 1900, month 1, day 1). -/
def fmtParses (fmt : List FmtDir) (cs : List Char) : List Date :=
  ((fmt.foldl stepDir [(⟨1900, 1, 1⟩, cs)]).filter fun st => st.2.isEmpty).map
    fun st => st.1

/-- `datetime.strptime(s, fmt)` restricted to the date fields: the first
full match, or `none` (`ValueError`). -/
def strptime (fmt : List FmtDir) (s : String) : Option Date :=
  (fmtParses fmt s.data).head?

/-- `"%b %d, %Y"`. -/
def fmtAbbrCommaY4 : List FmtDir :=
  [FmtDir.monthAbbr, FmtDir.ws, FmtDir.dayNum, FmtDir.lit ',', FmtDir.ws, FmtDir.year4]

/-- `"%B %d, %Y"`. -/
def fmtFullCommaY4 : List FmtDir :=
  [FmtDir.monthFull, FmtDir.ws, FmtDir.dayNum, FmtDir.lit ',', FmtDir.ws, FmtDir.year4]

/-- `"%m/%d/%Y"`. -/
def fmtSlashY4 : List FmtDir :=
  [FmtDir.monthNum, FmtDir.lit '/', FmtDir.dayNum, FmtDir.lit '/', FmtDir.year4]

/-- `"%m/%d/%y"`. -/
def fmtSlashY2 : List FmtDir :=
  [FmtDir.monthNum, FmtDir.lit '/', FmtDir.dayNum, FmtDir.lit '/', FmtDir.year2]

/-- `"%m-%d-%Y"`. -/
def fmtDashY4 : List FmtDir :=
  [FmtDir.monthNum, FmtDir.lit '-', FmtDir.dayNum, FmtDir.lit '-', FmtDir.year4]

/-- `"%m-%d-%y"`. -/
def fmtDashY2 : List FmtDir :=
  [FmtDir.monthNum, FmtDir.lit '-', FmtDir.dayNum, FmtDir.lit '-', FmtDir.year2]

/-- The format chain of `_extract_purchase_date` (line 366). -/
def walmartDateFormats : List (List FmtDir) :=
  [fmtAbbrCommaY4, fmtSlashY4, fmtSlashY2]

/-- The format chain of `_extract_amazon_purchase_date` (lines 436-443). -/
def amazonDateFormats : List (List FmtDir) :=
  [fmtFullCommaY4, fmtAbbrCommaY4, fmtSlashY4, fmtSlashY2, fmtDashY4, fmtDashY2]

/-- The `for date_format in date_formats: try strptime` loop (lines
365-372 and 445-451): first format that parses wins. -/
def tryDateFormats : List (List FmtDir) → String → Option Date
  | [], _ => none
  | fmt :: rest, s =>
      match strptime fmt s with
      | some d => some d
      | none => tryDateFormats rest s

/-- C10.  The purchase-date extraction logic parses each of
`"Jul 29, 2024"`, `"7/29/2024"` and `"7/29/24"` to the same calendar date
2024-07-29 — through the Walmart format chain and through the Amazon one
(note `"7/29/24"` fails `%m/%d/%Y`, whose `%Y` needs four digits, and then
succeeds under `%m/%d/%y` with the 20xx pivot). -/
theorem date_strings_parse_to_same_date :
    (tryDateFormats walmartDateFormats "Jul 29, 2024" = some ⟨2024, 7, 29⟩) ∧
    (tryDateFormats walmartDateFormats "7/29/2024" = some ⟨2024, 7, 29⟩) ∧
    (tryDateFormats walmartDateFormats "7/29/24" = some ⟨2024, 7, 29⟩) ∧
    (tryDateFormats amazonDateFormats "Jul 29, 2024" = some ⟨2024, 7, 29⟩) ∧
    (tryDateFormats amazonDateFormats "7/29/2024" = some ⟨2024, 7, 29⟩) ∧
    (tryDateFormats amazonDateFormats "7/29/24" = some ⟨2024, 7, 29⟩) := by
  decide
